import Mathlib

/-!
Shallow embedding of `src/all_agents_tutorials/self_improving_agent.ipynb`:
a "self-improving" conversational agent built around a session store
(a dict from session id to a `ChatMessageHistory`), three module-level
helper functions (`get_chat_history`, `generate_response`, `reflect`,
`learn`) and a `SelfImprovingAgent` class holding the store and an
agent-wide `insights` string.

The hosted language-model collaborator is modelled as an opaque-to-the-core
oracle `llm : List Msg → Except ε String`: one synchronous call that either
returns generated text or fails with a provider error. Python dicts become
association lists (`Store`), LangChain messages become `Msg` (role + text),
and exception propagation becomes the `Except` value threaded back to the
caller together with the store mutations that happened before the raise.
-/

/-- Message roles used by the LangChain prompt templates and histories:
`system`, `human` and `ai` messages. -/
inductive Role where
  | system
  | human
  | ai
deriving DecidableEq, Repr

/-- One message: a role tag plus text content. -/
structure Msg where
  role : Role
  text : String
deriving DecidableEq, Repr

/-- A `ChatMessageHistory` is the ordered transcript of one session. -/
abbrev ChatMessageHistory := List Msg

/-- The session store: a Python dict from session id to history, embedded as
an association list (first entry with the key wins on lookup). -/
abbrev Store := List (String × ChatMessageHistory)

/-- Dict membership / lookup: `store[session_id]` when present. -/
def Store.find : Store → String → Option ChatMessageHistory
  | [], _ => none
  | (k, v) :: rest, sid => if k = sid then some v else Store.find rest sid

/-- Dict assignment `store[session_id] = h`: overwrite the entry when the key
is present, append a new entry otherwise. -/
def Store.set : Store → String → ChatMessageHistory → Store
  | [], sid, h => [(sid, h)]
  | (k, v) :: rest, sid, h =>
    if k = sid then (sid, h) :: rest else (k, v) :: Store.set rest sid h

/-- The transcript a session id currently denotes: its stored history, or the
empty transcript when the id has never been touched. -/
def transcriptD (store : Store) (sid : String) : ChatMessageHistory :=
  (Store.find store sid).getD []

/-- `get_chat_history(store, session_id)`: return the session's history,
lazily creating an empty one when the id is absent. Returns the possibly
extended store together with the history the caller will read or mutate. -/
def get_chat_history (store : Store) (sid : String) : Store × ChatMessageHistory :=
  match Store.find store sid with
  | some h => (store, h)
  | none => (Store.set store sid [], [])

/-- The language-model collaborator: an ordered list of role-tagged messages
in, generated text out, or a provider error of type `ε`. -/
abbrev LLM (ε : Type) := List Msg → Except ε String

/-- Fixed system instruction of the agent's response prompt template. -/
def respondSystemInstruction : String :=
  "You are a self-improving AI assistant. Learn from your interactions and improve your performance over time."

/-- Fixed text that precedes the insights string in the trailing system note
of the response prompt (the template line with the insights placeholder). -/
def insightsNoteLead : String := "Recent insights for improvement: "

/-- Fixed system instruction of the reflection prompt template. -/
def reflectSystemInstruction : String :=
  "Based on the following conversation history, provide insights on how to improve responses:"

/-- Fixed closing human request of the reflection prompt template. -/
def reflectClosingRequest : String := "Generate insights for improvement:"

/-- Fixed system instruction of the learning prompt template. -/
def learnSystemInstruction : String :=
  "Based on these insights, update the agent's knowledge and behavior:"

/-- Fixed closing human request of the learning prompt template. -/
def learnClosingRequest : String := "Summarize the key points to remember:"

/-- Fixed marker prefixed to the text `learn` appends to the transcript. -/
def learnedMarker : String := "[SYSTEM] Agent learned: "

/-- The response prompt `self.prompt` with its placeholders filled: fixed
system instruction, the history placeholder, the new human turn, and the
trailing system note embedding the current insights string. -/
def respondPrompt (history : ChatMessageHistory) (humanInput insights : String) :
    List Msg :=
  Msg.mk Role.system respondSystemInstruction ::
    (history ++
      [Msg.mk Role.human humanInput,
       Msg.mk Role.system (insightsNoteLead ++ insights)])

/-- The reflection prompt with its history placeholder filled. -/
def reflectPrompt (history : ChatMessageHistory) : List Msg :=
  Msg.mk Role.system reflectSystemInstruction ::
    (history ++ [Msg.mk Role.human reflectClosingRequest])

/-- The learning prompt with its insights placeholder filled. -/
def learnPrompt (insights : String) : List Msg :=
  [Msg.mk Role.system learnSystemInstruction,
   Msg.mk Role.human insights,
   Msg.mk Role.human learnClosingRequest]

/-- `generate_response(chain_with_history, human_input, session_id, insights)`:
`RunnableWithMessageHistory` fetches (lazily creating) the session history,
invokes the chain on the filled response prompt, and on success appends the
human turn and the returned AI turn to the history. On a collaborator error
nothing is appended, but the lazily created empty entry persists. -/
def generate_response {ε : Type} (llm : LLM ε) (store : Store)
    (human_input sid insights : String) : Store × Except ε String :=
  let s1 := (get_chat_history store sid).1
  let h := (get_chat_history store sid).2
  match llm (respondPrompt h human_input insights) with
  | Except.error e => (s1, Except.error e)
  | Except.ok out =>
    (Store.set s1 sid (h ++ [Msg.mk Role.human human_input, Msg.mk Role.ai out]),
     Except.ok out)

/-- `reflect(llm, store, session_id)`: build the reflection prompt over the
session's history and invoke the collaborator once, returning its raw text
verbatim. The transcript itself is not written to. -/
def reflect {ε : Type} (llm : LLM ε) (store : Store) (sid : String) :
    Store × Except ε String :=
  ((get_chat_history store sid).1, llm (reflectPrompt (get_chat_history store sid).2))

/-- `learn(llm, store, session_id, insights)`: invoke the collaborator on the
learning prompt; on success append one AI message whose text is the fixed
marker followed by the learned points, and return the learned points. -/
def learn {ε : Type} (llm : LLM ε) (store : Store) (sid insights : String) :
    Store × Except ε String :=
  match llm (learnPrompt insights) with
  | Except.error e => (store, Except.error e)
  | Except.ok learned_points =>
    (Store.set (get_chat_history store sid).1 sid
      ((get_chat_history store sid).2 ++
        [Msg.mk Role.ai (learnedMarker ++ learned_points)]),
     Except.ok learned_points)

/-- Alias for the module-level `reflect`, callable from inside the agent's
method of the same name. -/
def reflectFn {ε : Type} (llm : LLM ε) (store : Store) (sid : String) :
    Store × Except ε String :=
  reflect llm store sid

/-- Alias for the module-level `learn`, callable from inside the agent's
method of the same name. -/
def learnFn {ε : Type} (llm : LLM ε) (store : Store) (sid insights : String) :
    Store × Except ε String :=
  learn llm store sid insights

/-- The `SelfImprovingAgent` object's mutable state: the session store and
the agent-wide insights string (`self.store`, `self.insights`). The LLM and
the prompt/chain objects built in `__init__` are the fixed collaborator and
the fixed templates above. -/
structure SelfImprovingAgent where
  store : Store
  insights : String
deriving DecidableEq, Repr

/-- `SelfImprovingAgent.__init__`: empty store, empty insights. -/
def SelfImprovingAgent.init : SelfImprovingAgent := ⟨[], ""⟩

/-- `SelfImprovingAgent.respond(human_input, session_id)`: delegate to
`generate_response` with the agent's current insights; the store mutations
land back in `self.store`. -/
def SelfImprovingAgent.respond (a : SelfImprovingAgent) {ε : Type} (llm : LLM ε)
    (human_input sid : String) : SelfImprovingAgent × Except ε String :=
  ({ a with store := (generate_response llm a.store human_input sid a.insights).1 },
   (generate_response llm a.store human_input sid a.insights).2)

/-- `SelfImprovingAgent.reflect(session_id)`: run the module-level `reflect`
and store its output as the new agent-wide insights; when the collaborator
fails the assignment never happens and the error propagates, though the
lazily created store entry persists. -/
def SelfImprovingAgent.reflect (a : SelfImprovingAgent) {ε : Type} (llm : LLM ε)
    (sid : String) : SelfImprovingAgent × Except ε String :=
  match (reflectFn llm a.store sid).2 with
  | Except.ok newInsights =>
    ({ store := (reflectFn llm a.store sid).1, insights := newInsights },
     Except.ok newInsights)
  | Except.error e =>
    ({ a with store := (reflectFn llm a.store sid).1 }, Except.error e)

/-- `SelfImprovingAgent.learn(session_id)`: first `self.reflect(session_id)`
(overwriting the agent-wide insights with the reflection output), then the
module-level `learn` on the freshly stored insights; its result is returned.
An error in either collaborator call propagates unmodified. -/
def SelfImprovingAgent.learn (a : SelfImprovingAgent) {ε : Type} (llm : LLM ε)
    (sid : String) : SelfImprovingAgent × Except ε String :=
  let r := SelfImprovingAgent.reflect a llm sid
  match r.2 with
  | Except.error e => (r.1, Except.error e)
  | Except.ok _ =>
    ({ r.1 with store := (learnFn llm r.1.store sid r.1.insights).1 },
     (learnFn llm r.1.store sid r.1.insights).2)

/-- Iterated `respond` calls on one session, collecting the returned texts;
stops at (and propagates) the first collaborator error, like the sequential
example-usage cell does. -/
def respondList {ε : Type} (llm : LLM ε) (a : SelfImprovingAgent) (sid : String) :
    List String → SelfImprovingAgent × Except ε (List String)
  | [] => (a, Except.ok [])
  | i :: rest =>
    match (SelfImprovingAgent.respond a llm i sid).2 with
    | Except.error e => ((SelfImprovingAgent.respond a llm i sid).1, Except.error e)
    | Except.ok out =>
      match (respondList llm (SelfImprovingAgent.respond a llm i sid).1 sid rest).2 with
      | Except.error e =>
        ((respondList llm (SelfImprovingAgent.respond a llm i sid).1 sid rest).1,
         Except.error e)
      | Except.ok outs =>
        ((respondList llm (SelfImprovingAgent.respond a llm i sid).1 sid rest).1,
         Except.ok (out :: outs))

/-- The transcript shape produced by alternating human/agent turns: one human
turn then one agent turn per `respond` call, in call order. -/
def interleaveTurns : List String → List String → ChatMessageHistory
  | i :: is, o :: os => Msg.mk Role.human i :: Msg.mk Role.ai o :: interleaveTurns is os
  | _, _ => []

/-- A collaborator oracle used for concrete runs: it answers every prompt
with the decimal length of the prompt, so prompts of different shapes get
visibly different answers. -/
def llmByLen : LLM Unit := fun p => Except.ok (toString p.length)

/-- A collaborator oracle that always fails. -/
def llmFail : LLM Unit := fun _ => Except.error ()

/-! ## Store lemmas -/

theorem Store.find_set_self (s : Store) (sid : String) (h : ChatMessageHistory) :
    Store.find (Store.set s sid h) sid = some h := by
  induction s with
  | nil => simp [Store.set, Store.find]
  | cons kv rest ih =>
    obtain ⟨k, v⟩ := kv
    by_cases hk : k = sid <;> simp [Store.set, Store.find, hk, ih]

theorem Store.find_set_ne (s : Store) (sid t : String) (h : ChatMessageHistory)
    (hne : t ≠ sid) : Store.find (Store.set s sid h) t = Store.find s t := by
  induction s with
  | nil => simp [Store.set, Store.find, Ne.symm hne]
  | cons kv rest ih =>
    obtain ⟨k, v⟩ := kv
    by_cases hk : k = sid
    · subst hk
      simp [Store.set, Store.find, Ne.symm hne]
    · simp [Store.set, Store.find, hk, ih]

theorem get_chat_history_snd (store : Store) (sid : String) :
    (get_chat_history store sid).2 = transcriptD store sid := by
  unfold get_chat_history transcriptD
  cases hf : Store.find store sid <;> simp [hf]

theorem get_chat_history_find_self (store : Store) (sid : String) :
    Store.find (get_chat_history store sid).1 sid = some (transcriptD store sid) := by
  unfold get_chat_history transcriptD
  cases hf : Store.find store sid <;> simp [hf, Store.find_set_self]

theorem get_chat_history_find_ne (store : Store) (sid t : String) (hne : t ≠ sid) :
    Store.find (get_chat_history store sid).1 t = Store.find store t := by
  unfold get_chat_history
  cases hf : Store.find store sid <;> simp [hf, Store.find_set_ne _ _ _ _ hne]

theorem get_chat_history_fst_of_mem (store : Store) (sid : String)
    (h : ChatMessageHistory) (hmem : Store.find store sid = some h) :
    (get_chat_history store sid).1 = store := by
  unfold get_chat_history
  simp [hmem]

theorem transcriptD_set_self (s : Store) (sid : String) (h : ChatMessageHistory) :
    transcriptD (Store.set s sid h) sid = h := by
  simp [transcriptD, Store.find_set_self]

theorem transcriptD_get_chat_history_fst (store : Store) (sid t : String) :
    transcriptD (get_chat_history store sid).1 t = transcriptD store t := by
  by_cases ht : t = sid
  · subst ht
    simp [transcriptD, get_chat_history_find_self]
  · simp [transcriptD, get_chat_history_find_ne store sid t ht]

/-! ## Operation lemmas -/

theorem generate_response_snd {ε : Type} (llm : LLM ε) (store : Store)
    (input sid insights : String) :
    (generate_response llm store input sid insights).2 =
      llm (respondPrompt (transcriptD store sid) input insights) := by
  unfold generate_response
  rw [get_chat_history_snd]
  cases hc : llm (respondPrompt (transcriptD store sid) input insights) <;> simp [hc]

theorem generate_response_fst_ok {ε : Type} (llm : LLM ε) (store : Store)
    (input sid insights out : String)
    (hok : llm (respondPrompt (transcriptD store sid) input insights) = Except.ok out) :
    (generate_response llm store input sid insights).1 =
      Store.set (get_chat_history store sid).1 sid
        (transcriptD store sid ++ [Msg.mk Role.human input, Msg.mk Role.ai out]) := by
  unfold generate_response
  rw [get_chat_history_snd]
  simp [hok]

theorem generate_response_fst_error {ε : Type} (llm : LLM ε) (store : Store)
    (input sid insights : String) (e : ε)
    (herr : llm (respondPrompt (transcriptD store sid) input insights) = Except.error e) :
    (generate_response llm store input sid insights).1 = (get_chat_history store sid).1 := by
  unfold generate_response
  rw [get_chat_history_snd]
  simp [herr]

theorem learn_snd {ε : Type} (llm : LLM ε) (store : Store) (sid insights : String) :
    (learn llm store sid insights).2 = llm (learnPrompt insights) := by
  unfold learn
  cases hc : llm (learnPrompt insights) <;> simp [hc]

theorem learn_fst_ok {ε : Type} (llm : LLM ε) (store : Store) (sid insights L : String)
    (hok : llm (learnPrompt insights) = Except.ok L) :
    (learn llm store sid insights).1 =
      Store.set (get_chat_history store sid).1 sid
        (transcriptD store sid ++ [Msg.mk Role.ai (learnedMarker ++ L)]) := by
  unfold learn
  rw [hok]
  rw [get_chat_history_snd]

theorem learn_fst_error {ε : Type} (llm : LLM ε) (store : Store) (sid insights : String)
    (e : ε) (herr : llm (learnPrompt insights) = Except.error e) :
    (learn llm store sid insights).1 = store := by
  unfold learn
  rw [herr]

theorem reflect_fst {ε : Type} (llm : LLM ε) (store : Store) (sid : String) :
    (reflect llm store sid).1 = (get_chat_history store sid).1 := rfl

theorem reflect_snd {ε : Type} (llm : LLM ε) (store : Store) (sid : String) :
    (reflect llm store sid).2 = llm (reflectPrompt (transcriptD store sid)) := by
  unfold reflect
  rw [get_chat_history_snd]

theorem respond_fst_insights {ε : Type} (a : SelfImprovingAgent) (llm : LLM ε)
    (i sid : String) :
    ((SelfImprovingAgent.respond a llm i sid).1).insights = a.insights := rfl

theorem respond_snd {ε : Type} (a : SelfImprovingAgent) (llm : LLM ε) (i sid : String) :
    (SelfImprovingAgent.respond a llm i sid).2 =
      llm (respondPrompt (transcriptD a.store sid) i a.insights) := by
  unfold SelfImprovingAgent.respond
  exact generate_response_snd llm a.store i sid a.insights

theorem respond_transcript_ok {ε : Type} (a : SelfImprovingAgent) (llm : LLM ε)
    (i sid out : String)
    (hok : (SelfImprovingAgent.respond a llm i sid).2 = Except.ok out) :
    transcriptD ((SelfImprovingAgent.respond a llm i sid).1).store sid =
      transcriptD a.store sid ++ [Msg.mk Role.human i, Msg.mk Role.ai out] := by
  rw [respond_snd] at hok
  show transcriptD (generate_response llm a.store i sid a.insights).1 sid = _
  rw [generate_response_fst_ok llm a.store i sid a.insights out hok]
  exact transcriptD_set_self _ _ _

theorem reflect_agent_ok {ε : Type} (a : SelfImprovingAgent) (llm : LLM ε)
    (sid I : String)
    (hok : llm (reflectPrompt (transcriptD a.store sid)) = Except.ok I) :
    SelfImprovingAgent.reflect a llm sid =
      (⟨(get_chat_history a.store sid).1, I⟩, Except.ok I) := by
  unfold SelfImprovingAgent.reflect reflectFn
  rw [reflect_snd]
  simp [hok, reflect_fst]

theorem learn_agent_ok {ε : Type} (a : SelfImprovingAgent) (llm : LLM ε)
    (sid R : String)
    (hok : llm (reflectPrompt (transcriptD a.store sid)) = Except.ok R) :
    (SelfImprovingAgent.learn a llm sid).1.insights = R ∧
    (SelfImprovingAgent.learn a llm sid).2 = llm (learnPrompt R) := by
  unfold SelfImprovingAgent.learn
  rw [reflect_agent_ok a llm sid R hok]
  simp [learnFn, learn_snd]

theorem respondList_ok {ε : Type} (llm : LLM ε) (sid : String) :
    ∀ (inputs : List String) (a : SelfImprovingAgent) (outs : List String),
      (respondList llm a sid inputs).2 = Except.ok outs →
      outs.length = inputs.length ∧
      transcriptD ((respondList llm a sid inputs).1).store sid =
        transcriptD a.store sid ++ interleaveTurns inputs outs ∧
      ((respondList llm a sid inputs).1).insights = a.insights := by
  intro inputs
  induction inputs with
  | nil =>
    intro a outs h
    simp [respondList] at h
    subst h
    simp [respondList, interleaveTurns]
  | cons i rest ih =>
    intro a outs h
    cases hr : (SelfImprovingAgent.respond a llm i sid).2 with
    | error e =>
      rw [respondList] at h
      simp [hr] at h
    | ok out =>
      cases hrl : (respondList llm (SelfImprovingAgent.respond a llm i sid).1 sid rest).2 with
      | error e =>
        rw [respondList] at h
        simp [hr, hrl] at h
      | ok outs2 =>
        have h2 : outs = out :: outs2 := by
          rw [respondList] at h
          simp [hr, hrl] at h
          exact h.symm
        obtain ⟨hlen, htr, hins⟩ := ih (SelfImprovingAgent.respond a llm i sid).1 outs2 hrl
        have hfst : (respondList llm a sid (i :: rest)).1 =
            (respondList llm (SelfImprovingAgent.respond a llm i sid).1 sid rest).1 := by
          rw [respondList]
          simp [hr, hrl]
        subst h2
        refine ⟨by simp [hlen], ?_, ?_⟩
        · rw [hfst, htr, respond_transcript_ok a llm i sid out hr]
          simp [interleaveTurns, List.append_assoc]
        · rw [hfst, hins, respond_fst_insights]

theorem reflect_agent_insights_ok {ε : Type} (a : SelfImprovingAgent) (llm : LLM ε)
    (sid I : String)
    (h : (SelfImprovingAgent.reflect a llm sid).2 = Except.ok I) :
    ((SelfImprovingAgent.reflect a llm sid).1).insights = I := by
  unfold SelfImprovingAgent.reflect at h ⊢
  cases hc : (reflectFn llm a.store sid).2 with
  | error e => rw [hc] at h; simp at h
  | ok n => rw [hc] at h; simp at h; simpa using h

theorem interleaveTurns_length (is : List String) :
    ∀ os : List String, os.length = is.length →
      (interleaveTurns is os).length = 2 * is.length := by
  induction is with
  | nil => intro os h; cases os <;> simp_all [interleaveTurns]
  | cons i is ih =>
    intro os h
    cases os with
    | nil => simp at h
    | cons o os =>
      simp only [interleaveTurns, List.length_cons]
      have := ih os (by simpa using h)
      omega

theorem generate_response_find_ne {ε : Type} (llm : LLM ε) (store : Store)
    (input sid insights t : String) (hne : t ≠ sid) :
    Store.find (generate_response llm store input sid insights).1 t =
      Store.find store t := by
  cases hc : llm (respondPrompt (transcriptD store sid) input insights) with
  | error e =>
    rw [generate_response_fst_error llm store input sid insights e hc]
    exact get_chat_history_find_ne store sid t hne
  | ok out =>
    rw [generate_response_fst_ok llm store input sid insights out hc,
      Store.find_set_ne _ _ _ _ hne]
    exact get_chat_history_find_ne store sid t hne

theorem generate_response_find_self {ε : Type} (llm : LLM ε) (store : Store)
    (input sid insights : String) :
    ∃ suffix : ChatMessageHistory,
      Store.find (generate_response llm store input sid insights).1 sid =
        some (transcriptD store sid ++ suffix) := by
  cases hc : llm (respondPrompt (transcriptD store sid) input insights) with
  | error e =>
    refine ⟨[], ?_⟩
    rw [generate_response_fst_error llm store input sid insights e hc,
      get_chat_history_find_self]
    simp
  | ok out =>
    refine ⟨[Msg.mk Role.human input, Msg.mk Role.ai out], ?_⟩
    rw [generate_response_fst_ok llm store input sid insights out hc,
      Store.find_set_self]

theorem learn_find_ne {ε : Type} (llm : LLM ε) (store : Store)
    (sid insights t : String) (hne : t ≠ sid) :
    Store.find (learn llm store sid insights).1 t = Store.find store t := by
  cases hc : llm (learnPrompt insights) with
  | error e => rw [learn_fst_error llm store sid insights e hc]
  | ok L =>
    rw [learn_fst_ok llm store sid insights L hc, Store.find_set_ne _ _ _ _ hne]
    exact get_chat_history_find_ne store sid t hne

theorem learn_find_self {ε : Type} (llm : LLM ε) (store : Store)
    (sid insights : String) :
    Store.find (learn llm store sid insights).1 sid = Store.find store sid ∨
    ∃ suffix : ChatMessageHistory,
      Store.find (learn llm store sid insights).1 sid =
        some (transcriptD store sid ++ suffix) := by
  cases hc : llm (learnPrompt insights) with
  | error e => exact Or.inl (by rw [learn_fst_error llm store sid insights e hc])
  | ok L =>
    refine Or.inr ⟨[Msg.mk Role.ai (learnedMarker ++ L)], ?_⟩
    rw [learn_fst_ok llm store sid insights L hc, Store.find_set_self]

/-! ## Claim theorems -/

/-- C1, counterexample: with the length-answering oracle, `agent.learn` on a
fresh agent returns the learning call's text "3" while the stored insights
value is the reflection call's text "2", so the stored Insights value after
`learn` does not equal `learn`'s returned text. -/
theorem c1_counterexample :
    (SelfImprovingAgent.learn SelfImprovingAgent.init llmByLen "s").2 =
      Except.ok "3" ∧
    (SelfImprovingAgent.learn SelfImprovingAgent.init llmByLen "s").1.insights =
      "2" ∧
    ("2" : String) ≠ "3" :=
  ⟨rfl, rfl, by decide⟩

/-- C1 (amended): after `agent.learn` on session `sid` returns learned text
`L`, the stored Insights value equals the reflection output `R` computed
during that call (not `L`), and the prompt constructed by the next `respond`
call on any session embeds `R` verbatim in its trailing system note. -/
theorem c1_amended_insights_is_reflection {ε : Type} (llm : LLM ε)
    (a : SelfImprovingAgent) (sid sid2 input R L : String)
    (hR : llm (reflectPrompt (transcriptD a.store sid)) = Except.ok R)
    (hL : llm (learnPrompt R) = Except.ok L) :
    (SelfImprovingAgent.learn a llm sid).2 = Except.ok L ∧
    ((SelfImprovingAgent.learn a llm sid).1).insights = R ∧
    ∃ front : List Msg,
      respondPrompt (transcriptD ((SelfImprovingAgent.learn a llm sid).1).store sid2)
          input ((SelfImprovingAgent.learn a llm sid).1).insights =
        front ++ [Msg.mk Role.system (insightsNoteLead ++ R)] := by
  obtain ⟨h1, h2⟩ := learn_agent_ok a llm sid R hR
  refine ⟨by rw [h2, hL], h1, ?_⟩
  refine ⟨Msg.mk Role.system respondSystemInstruction ::
    (transcriptD ((SelfImprovingAgent.learn a llm sid).1).store sid2 ++
      [Msg.mk Role.human input]), ?_⟩
  rw [h1]
  simp [respondPrompt]

/-- C1 (amended), witness at the length-answering oracle: reflection returns
"2", learning returns "3", and the amended conclusions hold concretely. -/
theorem c1_amended_witness :
    llmByLen (reflectPrompt (transcriptD SelfImprovingAgent.init.store "s")) =
      Except.ok "2" ∧
    llmByLen (learnPrompt "2") = Except.ok "3" ∧
    ((SelfImprovingAgent.learn SelfImprovingAgent.init llmByLen "s").2 =
      Except.ok "3" ∧
    ((SelfImprovingAgent.learn SelfImprovingAgent.init llmByLen "s").1).insights =
      "2" ∧
    ∃ front : List Msg,
      respondPrompt
          (transcriptD
            ((SelfImprovingAgent.learn SelfImprovingAgent.init llmByLen "s").1).store
            "t")
          "q"
          ((SelfImprovingAgent.learn SelfImprovingAgent.init llmByLen "s").1).insights =
        front ++ [Msg.mk Role.system (insightsNoteLead ++ "2")]) :=
  ⟨rfl, rfl,
    c1_amended_insights_is_reflection llmByLen SelfImprovingAgent.init
      "s" "t" "q" "2" "3" rfl rfl⟩

/-- C2: Insights is a single agent-wide field. After `reflect` on session `A`
stores insights `I`, the very next `respond` call on a distinct session `B`
consults the collaborator on a prompt whose trailing system note embeds that
same value `I` verbatim. -/
theorem c2_insights_cross_session {ε : Type} (llm llm2 : LLM ε)
    (a : SelfImprovingAgent) (A B input I : String) (hAB : A ≠ B)
    (hrefl : (SelfImprovingAgent.reflect a llm A).2 = Except.ok I) :
    ((SelfImprovingAgent.reflect a llm A).1).insights = I ∧
    (SelfImprovingAgent.respond ((SelfImprovingAgent.reflect a llm A).1) llm2
        input B).2 =
      llm2 (respondPrompt
        (transcriptD ((SelfImprovingAgent.reflect a llm A).1).store B) input I) ∧
    ∃ front : List Msg,
      respondPrompt (transcriptD ((SelfImprovingAgent.reflect a llm A).1).store B)
          input ((SelfImprovingAgent.reflect a llm A).1).insights =
        front ++ [Msg.mk Role.system (insightsNoteLead ++ I)] := by
  have h1 := reflect_agent_insights_ok a llm A I hrefl
  refine ⟨h1, by rw [respond_snd, h1], ?_⟩
  refine ⟨Msg.mk Role.system respondSystemInstruction ::
    (transcriptD ((SelfImprovingAgent.reflect a llm A).1).store B ++
      [Msg.mk Role.human input]), ?_⟩
  rw [h1]
  simp [respondPrompt]

/-- C2, witness: reflect on session "a" of a fresh agent stores "2"; the next
respond call on the distinct session "b" gets a prompt whose trailing note
embeds "2". -/
theorem c2_witness :
    ("a" : String) ≠ "b" ∧
    (SelfImprovingAgent.reflect SelfImprovingAgent.init llmByLen "a").2 =
      Except.ok "2" ∧
    (((SelfImprovingAgent.reflect SelfImprovingAgent.init llmByLen "a").1).insights =
      "2" ∧
    (SelfImprovingAgent.respond
        ((SelfImprovingAgent.reflect SelfImprovingAgent.init llmByLen "a").1)
        llmByLen "q" "b").2 =
      llmByLen (respondPrompt
        (transcriptD
          ((SelfImprovingAgent.reflect SelfImprovingAgent.init llmByLen "a").1).store
          "b")
        "q" "2") ∧
    ∃ front : List Msg,
      respondPrompt
          (transcriptD
            ((SelfImprovingAgent.reflect SelfImprovingAgent.init llmByLen "a").1).store
            "b")
          "q"
          ((SelfImprovingAgent.reflect SelfImprovingAgent.init llmByLen "a").1).insights =
        front ++ [Msg.mk Role.system (insightsNoteLead ++ "2")]) :=
  ⟨by decide, rfl,
    c2_insights_cross_session llmByLen llmByLen SelfImprovingAgent.init
      "a" "b" "q" "2" (by decide) rfl⟩

/-- C3: starting from a fresh (empty-transcript) session, after `N`
successful `respond` calls the session's transcript is exactly the
alternation of the `N` human inputs with the `N` returned agent texts, in
call order, hence has length `2 * N`. -/
theorem c3_transcript_length {ε : Type} (llm : LLM ε) (a : SelfImprovingAgent)
    (sid : String) (inputs outs : List String)
    (hfresh : transcriptD a.store sid = [])
    (hok : (respondList llm a sid inputs).2 = Except.ok outs) :
    outs.length = inputs.length ∧
    transcriptD ((respondList llm a sid inputs).1).store sid =
      interleaveTurns inputs outs ∧
    (transcriptD ((respondList llm a sid inputs).1).store sid).length =
      2 * inputs.length := by
  obtain ⟨hlen, htr, -⟩ := respondList_ok llm sid inputs a outs hok
  rw [hfresh] at htr
  simp only [List.nil_append] at htr
  exact ⟨hlen, htr, by rw [htr]; exact interleaveTurns_length inputs outs hlen⟩

/-- C3, witness: two respond calls on a fresh agent succeed with outputs
"3" and "5" and leave a four-turn alternating transcript. -/
theorem c3_witness :
    transcriptD SelfImprovingAgent.init.store "s" = [] ∧
    (respondList llmByLen SelfImprovingAgent.init "s" ["a", "b"]).2 =
      Except.ok ["3", "5"] ∧
    ((["3", "5"] : List String).length = (["a", "b"] : List String).length ∧
    transcriptD
        ((respondList llmByLen SelfImprovingAgent.init "s" ["a", "b"]).1).store "s" =
      interleaveTurns ["a", "b"] ["3", "5"] ∧
    (transcriptD
        ((respondList llmByLen SelfImprovingAgent.init "s" ["a", "b"]).1).store
        "s").length =
      2 * (["a", "b"] : List String).length) :=
  ⟨rfl, rfl,
    c3_transcript_length llmByLen SelfImprovingAgent.init "s" ["a", "b"]
      ["3", "5"] rfl rfl⟩

/-- C4: when the collaborator call succeeds with text `L`, `learn` appends
exactly one turn to the session's transcript, that turn's text is the fixed
marker followed by `L`, and `learn` returns `L` (the appended text with the
marker removed). -/
theorem c4_learn_appends_marked_turn {ε : Type} (llm : LLM ε) (store : Store)
    (sid insights L : String)
    (hok : llm (learnPrompt insights) = Except.ok L) :
    (learn llm store sid insights).2 = Except.ok L ∧
    transcriptD (learn llm store sid insights).1 sid =
      transcriptD store sid ++ [Msg.mk Role.ai (learnedMarker ++ L)] := by
  constructor
  · rw [learn_snd, hok]
  · rw [learn_fst_ok llm store sid insights L hok, transcriptD_set_self]

/-- C4, witness: `learn` with the length-answering oracle on an empty store
appends the single marked turn for learned text "3" and returns "3". -/
theorem c4_witness :
    llmByLen (learnPrompt "I") = Except.ok "3" ∧
    ((learn llmByLen [] "s" "I").2 = Except.ok "3" ∧
    transcriptD (learn llmByLen [] "s" "I").1 "s" =
      transcriptD [] "s" ++ [Msg.mk Role.ai (learnedMarker ++ "3")]) :=
  ⟨rfl, c4_learn_appends_marked_turn llmByLen [] "s" "I" "3" rfl⟩

/-- C5, counterexample: the turn `learn` appends is an `ai`-role turn (it is
added with `add_ai_message`), not a turn with the distinct system role: on a
concrete run the appended turn's role is `Role.ai` and `Role.ai ≠
Role.system`. -/
theorem c5_counterexample :
    (transcriptD (learn llmByLen [] "s" "I").1 "s").map Msg.role = [Role.ai] ∧
    Role.ai ≠ Role.system :=
  ⟨rfl, by decide⟩

/-- C5 (amended): the single turn `learn` appends carries the agent (`ai`)
role — the same role as ordinary agent turns — and its synthetic-system
character lives only in its text, which starts with the fixed
"[SYSTEM] Agent learned: " marker. -/
theorem c5_amended_ai_role {ε : Type} (llm : LLM ε) (store : Store)
    (sid insights L : String)
    (hok : llm (learnPrompt insights) = Except.ok L) :
    ∃ t : Msg,
      transcriptD (learn llm store sid insights).1 sid =
        transcriptD store sid ++ [t] ∧
      t.role = Role.ai ∧ t.text = learnedMarker ++ L := by
  refine ⟨Msg.mk Role.ai (learnedMarker ++ L), ?_, rfl, rfl⟩
  rw [learn_fst_ok llm store sid insights L hok, transcriptD_set_self]

/-- C5 (amended), witness: the concrete appended turn has role `ai` and the
marked text. -/
theorem c5_amended_witness :
    llmByLen (learnPrompt "I") = Except.ok "3" ∧
    ∃ t : Msg,
      transcriptD (learn llmByLen [] "s" "I").1 "s" =
        transcriptD [] "s" ++ [t] ∧
      t.role = Role.ai ∧ t.text = learnedMarker ++ "3" :=
  ⟨rfl, c5_amended_ai_role llmByLen [] "s" "I" "3" rfl⟩

/-- C6: `reflect` never mutates any transcript; when the session already has
a stored transcript the whole session store is bit-for-bit identical before
and after the call (the collaborator call itself aside). -/
theorem c6_reflect_preserves_store {ε : Type} (llm : LLM ε) (store : Store)
    (sid : String) (h : ChatMessageHistory)
    (hmem : Store.find store sid = some h) :
    (reflect llm store sid).1 = store ∧
    ∀ t : String, transcriptD (reflect llm store sid).1 t = transcriptD store t := by
  constructor
  · rw [reflect_fst, get_chat_history_fst_of_mem store sid h hmem]
  · intro t
    rw [reflect_fst]
    exact transcriptD_get_chat_history_fst store sid t

/-- C6, witness: reflecting on a store that already holds session "s" leaves
the store unchanged. -/
theorem c6_witness :
    Store.find [("s", [Msg.mk Role.human "hi"])] "s" =
      some [Msg.mk Role.human "hi"] ∧
    ((reflect llmByLen [("s", [Msg.mk Role.human "hi"])] "s").1 =
      [("s", [Msg.mk Role.human "hi"])] ∧
    ∀ t : String,
      transcriptD (reflect llmByLen [("s", [Msg.mk Role.human "hi"])] "s").1 t =
        transcriptD [("s", [Msg.mk Role.human "hi"])] t) :=
  ⟨rfl,
    c6_reflect_preserves_store llmByLen [("s", [Msg.mk Role.human "hi"])] "s"
      [Msg.mk Role.human "hi"] rfl⟩

/-- C7: the prompt `respond` constructs is, in order, the fixed system
instruction, the full prior transcript unfiltered, the new human turn, and a
trailing system note that embeds the current insights string verbatim; the
`respond` path consults the collaborator on exactly this prompt. -/
theorem c7_respond_prompt_shape {ε : Type} (llm : LLM ε) (store : Store)
    (input sid insights : String) :
    respondPrompt (transcriptD store sid) input insights =
      Msg.mk Role.system respondSystemInstruction ::
        (transcriptD store sid ++
          [Msg.mk Role.human input,
           Msg.mk Role.system (insightsNoteLead ++ insights)]) ∧
    (generate_response llm store input sid insights).2 =
      llm (respondPrompt (transcriptD store sid) input insights) ∧
    ∃ pre : String, insightsNoteLead ++ insights = pre ++ insights :=
  ⟨rfl, generate_response_snd llm store input sid insights,
    ⟨insightsNoteLead, rfl⟩⟩

/-- C8: when the collaborator fails, each of the three operations surfaces
exactly that error to the caller; session ids and insights strings are
arbitrary strings, passed to the collaborator without validation. -/
theorem c8_error_propagation {ε : Type} (llm : LLM ε) (store : Store)
    (input sid insights : String) (e1 e2 e3 : ε)
    (h1 : llm (respondPrompt (transcriptD store sid) input insights) =
      Except.error e1)
    (h2 : llm (reflectPrompt (transcriptD store sid)) = Except.error e2)
    (h3 : llm (learnPrompt insights) = Except.error e3) :
    (generate_response llm store input sid insights).2 = Except.error e1 ∧
    (reflect llm store sid).2 = Except.error e2 ∧
    (learn llm store sid insights).2 = Except.error e3 := by
  refine ⟨?_, ?_, ?_⟩
  · rw [generate_response_snd, h1]
  · rw [reflect_snd, h2]
  · rw [learn_snd, h3]

/-- C8, witness: with the always-failing oracle every operation surfaces the
provider error unmodified. -/
theorem c8_witness :
    llmFail (respondPrompt (transcriptD [] "s") "q" "I") = Except.error () ∧
    llmFail (reflectPrompt (transcriptD [] "s")) = Except.error () ∧
    llmFail (learnPrompt "I") = Except.error () ∧
    ((generate_response llmFail [] "q" "s" "I").2 = Except.error () ∧
    (reflect llmFail [] "s").2 = Except.error () ∧
    (learn llmFail [] "s" "I").2 = Except.error ()) :=
  ⟨rfl, rfl, rfl,
    c8_error_propagation llmFail [] "q" "s" "I" () () () rfl rfl rfl⟩

/-- C9 (implicit): `agent.learn` performs a reflection first — it runs
`reflect` on the session's transcript, stores the reflection output `R` as
the agent-wide insights before the learning call, and the learning call it
then makes consumes exactly `R`; the caller supplies no insights text. -/
theorem c9_learn_reflects_first {ε : Type} (llm : LLM ε)
    (a : SelfImprovingAgent) (sid R : String)
    (hR : llm (reflectPrompt (transcriptD a.store sid)) = Except.ok R) :
    ((SelfImprovingAgent.learn a llm sid).1).insights = R ∧
    (SelfImprovingAgent.learn a llm sid).2 = llm (learnPrompt R) ∧
    SelfImprovingAgent.reflect a llm sid =
      (⟨(get_chat_history a.store sid).1, R⟩, Except.ok R) := by
  obtain ⟨h1, h2⟩ := learn_agent_ok a llm sid R hR
  exact ⟨h1, h2, reflect_agent_ok a llm sid R hR⟩

/-- C9, witness: on a fresh agent the reflection output "2" is stored as
insights and the learning call consumes it, returning "3". -/
theorem c9_witness :
    llmByLen (reflectPrompt (transcriptD SelfImprovingAgent.init.store "s")) =
      Except.ok "2" ∧
    (((SelfImprovingAgent.learn SelfImprovingAgent.init llmByLen "s").1).insights =
      "2" ∧
    (SelfImprovingAgent.learn SelfImprovingAgent.init llmByLen "s").2 =
      llmByLen (learnPrompt "2") ∧
    SelfImprovingAgent.reflect SelfImprovingAgent.init llmByLen "s" =
      (⟨(get_chat_history SelfImprovingAgent.init.store "s").1, "2"⟩,
       Except.ok "2")) :=
  ⟨rfl, c9_learn_reflects_first llmByLen SelfImprovingAgent.init "s" "2" rfl⟩

/-- C10 (implicit): every operation is session-local on the store — an
operation on session `A` leaves every other session's entry untouched, and
its only effect on `A`'s entry is to leave it alone or extend the current
transcript (lazily creating it with the empty suffix). -/
theorem c10_session_locality {ε : Type} (llm : LLM ε) (store : Store)
    (A B input insights : String) (hne : B ≠ A) :
    Store.find (generate_response llm store input A insights).1 B =
      Store.find store B ∧
    Store.find (reflect llm store A).1 B = Store.find store B ∧
    Store.find (learn llm store A insights).1 B = Store.find store B ∧
    (∃ suffix : ChatMessageHistory,
      Store.find (generate_response llm store input A insights).1 A =
        some (transcriptD store A ++ suffix)) ∧
    (∃ suffix : ChatMessageHistory,
      Store.find (reflect llm store A).1 A =
        some (transcriptD store A ++ suffix)) ∧
    (Store.find (learn llm store A insights).1 A = Store.find store A ∨
      ∃ suffix : ChatMessageHistory,
        Store.find (learn llm store A insights).1 A =
          some (transcriptD store A ++ suffix)) := by
  refine ⟨generate_response_find_ne llm store input A insights B hne, ?_, ?_, ?_, ?_, ?_⟩
  · rw [reflect_fst]
    exact get_chat_history_find_ne store A B hne
  · exact learn_find_ne llm store A insights B hne
  · exact generate_response_find_self llm store input A insights
  · refine ⟨[], ?_⟩
    rw [reflect_fst, get_chat_history_find_self]
    simp
  · exact learn_find_self llm store A insights

/-- C10, witness: concrete operations on session "a" leave the pre-existing
entry of session "b" unchanged and only extend "a"'s transcript. -/
theorem c10_witness :
    ("b" : String) ≠ "a" ∧
    (Store.find (generate_response llmByLen [("b", [])] "q" "a" "I").1 "b" =
      Store.find [("b", [])] "b" ∧
    Store.find (reflect llmByLen [("b", [])] "a").1 "b" =
      Store.find [("b", [])] "b" ∧
    Store.find (learn llmByLen [("b", [])] "a" "I").1 "b" =
      Store.find [("b", [])] "b" ∧
    (∃ suffix : ChatMessageHistory,
      Store.find (generate_response llmByLen [("b", [])] "q" "a" "I").1 "a" =
        some (transcriptD [("b", [])] "a" ++ suffix)) ∧
    (∃ suffix : ChatMessageHistory,
      Store.find (reflect llmByLen [("b", [])] "a").1 "a" =
        some (transcriptD [("b", [])] "a" ++ suffix)) ∧
    (Store.find (learn llmByLen [("b", [])] "a" "I").1 "a" =
        Store.find [("b", [])] "a" ∨
      ∃ suffix : ChatMessageHistory,
        Store.find (learn llmByLen [("b", [])] "a" "I").1 "a" =
          some (transcriptD [("b", [])] "a" ++ suffix))) :=
  ⟨by decide,
    c10_session_locality llmByLen [("b", [])] "a" "b" "q" "I" (by decide)⟩
